import Mathlib

/-!
Shallow embedding of the Telegram YouTube downloader bot (`src/main.py`)
and verification of its specification claims.

Python strings are modelled as `List Char` (`PyStr`).  File-system state is
the list of paths of files currently existing in the scratch directory.
External collaborators (pytubefix download, ffmpeg, Telegram upload) are
modelled by boolean success flags in `Env`; each side effect performed by a
handler is recorded as an `Event` in an ordered trace.
-/

/-- Python strings, modelled as character lists. -/
abbrev PyStr := List Char

/-- File-system state: the set of files currently existing on disk,
as an ordered duplicate-free list of paths. -/
abbrev FS := List PyStr

/-- One pytubefix stream descriptor, with the attributes `main.py` reads:
`itag` identifies the stream, `subtype` is the file extension (read by
`filter(file_extension=...)`), `resolution` is the numeric value of the
`"NNNp"` resolution string or `none` for audio-only streams (read by
`order_by("resolution")`), `onlyAudio` is the `only_audio` flag,
`isProgressive` the `is_progressive` flag, `filesizeMb` the approximate
size shown on buttons, and `defaultFilename` pytubefix's default download
file name for the stream. -/
structure YtStream where
  itag : Nat
  subtype : PyStr
  resolution : Option Nat
  onlyAudio : Bool
  isProgressive : Bool
  filesizeMb : Nat
  defaultFilename : PyStr
deriving DecidableEq

/-- A pytubefix `YouTube` object: the metadata `main.py` reads, plus the
stream list. -/
structure YouTubeHandle where
  title : PyStr
  author : PyStr
  length : Nat
  views : Nat
  streams : List YtStream
deriving DecidableEq

/-- The per-user mutable state, from class `UserState` in `main.py`
(lines 30-35): `yt = None`, `selected_stream = None`, `url = None`. -/
structure UserState where
  yt : Option YouTubeHandle
  selected_stream : Option YtStream
  url : Option PyStr
deriving DecidableEq

/-- Success flags of the external collaborators for one operation:
whether `ffmpeg` is installed (the `ffmpeg -version` check succeeds),
whether the merge / conversion subprocesses exit with status 0, whether
each pytubefix download call succeeds, and whether the Telegram upload
succeeds. -/
structure Env where
  ffmpegAvailable : Bool
  mergeOk : Bool
  convOk : Bool
  videoDownloadOk : Bool
  audioDownloadOk : Bool
  sendOk : Bool
deriving DecidableEq

/-- The side effects a handler can perform, in order. -/
inductive Event where
  | msg (text : PyStr)
  | downloadTo (itag : Nat) (path : PyStr)
  | ffmpegCheck
  | ffmpegMerge (videoIn audioIn out : PyStr)
  | ffmpegConvert (audioIn out : PyStr)
  | sendVideo (path : PyStr)
  | sendAudio (path : PyStr)
  | removeFile (path : PyStr)
deriving DecidableEq

/-- The characters removed by `sanitize_filename` (main.py line 39):
the regex character class in `re.sub` is `< > : " / \ | ? *`. -/
def badChars : List Char := ['<', '>', ':', '"', '/', '\\', '|', '?', '*']

/-- `sanitize_filename` (main.py lines 38-39): delete every occurrence of a
character of the regex class from the string. -/
def sanitize_filename (filename : PyStr) : PyStr :=
  filename.filter (fun c => !(badChars.contains c))

/-- Model of `os.path.exists`. -/
def os_path_exists (fs : FS) (p : PyStr) : Bool := fs.contains p

/-- Model of `os.remove`: deleting an absent path raises
(`FileNotFoundError`), an existing path is removed. -/
def os_remove (fs : FS) (p : PyStr) : Except PyStr FS :=
  if fs.contains p then .ok (fs.erase p)
  else .error ("FileNotFoundError".data)

/-- The function `delete_file` (main.py lines 46-52): remove the path only
if it exists, otherwise log a warning and skip the deletion. -/
def delete_file (fs : FS) (p : PyStr) : Except PyStr FS :=
  if os_path_exists fs p then os_remove fs p
  else .ok fs

/-- Model of Python `str.strip()` on the inbound message text. -/
def pyStrip (s : PyStr) : PyStr :=
  ((s.dropWhile Char.isWhitespace).reverse.dropWhile Char.isWhitespace).reverse

/-- Decimal rendering of a natural number, for the f-string interpolations
of `user_id` and `int(time.time())`. -/
def natChars (n : Nat) : PyStr := Nat.toDigits 10 n

/-- Model of `os.path.join("downloads", name)`. -/
def joinDownloads (name : PyStr) : PyStr := "downloads/".data ++ name

/-- The f-string `f"video_{user_id}_{int(time.time())}.mp4"`
(main.py line 213). -/
def videoFilename (userId now : Nat) : PyStr :=
  "video_".data ++ natChars userId ++ "_".data ++ natChars now ++ ".mp4".data

/-- Key used by pytubefix `order_by("resolution")`: the integer formed by
the digits of the resolution string (e.g. `"720p"` gives 720).  Streams
whose resolution is `None` are removed before sorting, so the default
value is never consulted on them. -/
def resKey (s : YtStream) : Nat := s.resolution.getD 0

/-- Insert a stream into an ascending-by-resolution sorted list, before the
first element of greater-or-equal key.  `sortByResAsc` inserts earlier
elements last, so equal-keyed elements keep their original relative order,
matching Python's stable `sorted`. -/
def insRes (a : YtStream) : List YtStream → List YtStream
  | [] => [a]
  | b :: bs => if resKey a ≤ resKey b then a :: b :: bs else b :: insRes a bs

/-- Stable ascending sort by resolution key, extensionally equal to
Python's stable `sorted(..., key=resolution digits)` used by pytubefix
`order_by`. -/
def sortByResAsc : List YtStream → List YtStream
  | [] => []
  | a :: as => insRes a (sortByResAsc as)

/-- pytubefix `StreamQuery.order_by("resolution")`: drop the streams whose
`resolution` attribute is `None`, then stable-sort ascending by the
integer formed by the digits of the attribute. -/
def order_by_resolution (ss : List YtStream) : List YtStream :=
  sortByResAsc (ss.filter (fun s => s.resolution.isSome))

/-- pytubefix `StreamQuery.filter(file_extension="mp4")`. -/
def filterMp4 (ss : List YtStream) : List YtStream :=
  ss.filter (fun s => s.subtype == "mp4".data)

/-- pytubefix `StreamQuery.filter(only_audio=True, file_extension="mp4")`. -/
def filterAudioMp4 (ss : List YtStream) : List YtStream :=
  ss.filter (fun s => s.onlyAudio && s.subtype == "mp4".data)

/-- The stream list rendered by the quality keyboard of
`handle_download_option` (main.py line 157):
`yt.streams.filter(file_extension="mp4").order_by("resolution").desc()`. -/
def renderedQualityStreams (y : YouTubeHandle) : List YtStream :=
  (order_by_resolution (filterMp4 y.streams)).reverse

/-- The stream list re-derived by `handle_resolution_selection`
(main.py line 192), transcribed from that line:
`yt.streams.filter(file_extension="mp4").order_by("resolution").desc()`. -/
def selectionQualityStreams (y : YouTubeHandle) : List YtStream :=
  (order_by_resolution (filterMp4 y.streams)).reverse

/-- Outcome of the try-block of `download_video` (main.py lines 209-263):
trace so far, files on disk, the values of the local variables
`download_path`, `video_path`, `audio_path` (as in Python, each is `none`
until first assigned), and the caught exception text (`none` on success). -/
structure VidTry where
  evs : List Event
  fs : FS
  dp : Option PyStr
  vp : Option PyStr
  ap : Option PyStr
  err : Option PyStr
deriving DecidableEq

/-- The try-block of `download_video` (main.py lines 209-263).  Message
texts are transcribed without their emoji prefixes.  A download or
subprocess failure surfaces as the Python exception that line raises;
the local path variables keep the values they had at the raise point. -/
def download_video_try (st : UserState) (env : Env) (userId now : Nat) (fs : FS) : VidTry :=
  match st.selected_stream with
  | none => ⟨[], fs, none, none, none, some "No stream selected".data⟩
  | some s =>
    let filename := videoFilename userId now
    let dp0 := joinDownloads filename
    if s.isProgressive then
      let evs := [Event.msg "Downloading video...".data]
      if env.videoDownloadOk then
        let evs := evs ++ [Event.downloadTo s.itag dp0,
          Event.msg "Video download complete. Processing...".data]
        let fs := fs ++ [dp0]
        match st.yt with
        | none => ⟨evs, fs, some dp0, none, none, some "AttributeError".data⟩
        | some _ =>
          if env.sendOk then
            ⟨evs ++ [Event.sendVideo dp0, Event.msg "Complete.".data],
              fs, some dp0, none, none, none⟩
          else ⟨evs, fs, some dp0, none, none, some "send failed".data⟩
      else ⟨evs, fs, some dp0, none, none, some "download failed".data⟩
    else
      match st.yt with
      | none => ⟨[], fs, some dp0, none, none, some "AttributeError".data⟩
      | some y =>
        match (filterAudioMp4 y.streams).head? with
        | none => ⟨[], fs, some dp0, none, none, some "No audio stream found".data⟩
        | some aStream =>
          let vp := joinDownloads ("video_".data ++ filename)
          let ap := joinDownloads ("audio_".data ++ filename)
          let evs := [Event.msg "Downloading video part...".data]
          if env.videoDownloadOk then
            let evs := evs ++ [Event.downloadTo s.itag vp,
              Event.msg "Video part downloaded.".data,
              Event.msg "Downloading audio part...".data]
            let fs := fs ++ [vp]
            if env.audioDownloadOk then
              let evs := evs ++ [Event.downloadTo aStream.itag ap,
                Event.msg "Audio part downloaded. Merging...".data,
                Event.ffmpegCheck]
              let fs := fs ++ [ap]
              if env.ffmpegAvailable then
                let dp1 := joinDownloads ("final_".data ++ filename)
                let evs := evs ++ [Event.ffmpegMerge vp ap dp1]
                if env.mergeOk then
                  let fs := fs ++ [dp1]
                  let evs := evs ++ [Event.msg "Processing complete. Uploading...".data]
                  if env.sendOk then
                    ⟨evs ++ [Event.sendVideo dp1, Event.msg "Complete.".data],
                      fs, some dp1, some vp, some ap, none⟩
                  else ⟨evs, fs, some dp1, some vp, some ap, some "send failed".data⟩
                else ⟨evs, fs, some dp1, some vp, some ap, some "FFmpeg failed".data⟩
              else
                let evs := evs ++
                  [Event.msg "FFmpeg not found. Sending video without audio...".data]
                if env.sendOk then
                  ⟨evs ++ [Event.sendVideo vp, Event.msg "Complete.".data],
                    fs, some vp, some vp, some ap, none⟩
                else ⟨evs, fs, some vp, some vp, some ap, some "send failed".data⟩
            else ⟨evs, fs, some dp0, some vp, none, some "download failed".data⟩
          else ⟨evs, fs, some dp0, none, none, some "download failed".data⟩

/-- The finally-block of `download_video` (main.py lines 267-272):
for each of `download_path`, `video_path`, `audio_path` in that order,
if the variable is set and the path exists, remove it. -/
def cleanupVideoPaths (paths : List (Option PyStr)) (fs : FS) : FS × List Event :=
  paths.foldl
    (fun acc p =>
      match p with
      | none => acc
      | some path =>
        if os_path_exists acc.1 path then
          ((acc.1).erase path, acc.2 ++ [Event.removeFile path])
        else acc)
    (fs, [])

/-- The coroutine `download_video` (main.py lines 202-272): try-block, the
except-block message on failure, then the unconditional finally-block
cleanup.  Returns the event trace, the resulting file-system state, and
whether the operation succeeded. -/
def download_video (st : UserState) (env : Env) (userId now : Nat) (fs : FS) :
    List Event × FS × Bool :=
  let r := download_video_try st env userId now fs
  let evs :=
    match r.err with
    | none => r.evs
    | some e => r.evs ++ [Event.msg ("Failed. Error: ".data ++ e)]
  let cl := cleanupVideoPaths [r.dp, r.vp, r.ap] r.fs
  (evs ++ cl.2, cl.1, r.err.isNone)

/-- The path returned by `audio_stream.download(output_path="downloads",
filename_prefix="audio_")` in `download_audio` (main.py line 286): the
scratch directory joined with `"audio_"` prepended to the stream's
default file name. -/
def audioDownloadPath (a : YtStream) : PyStr :=
  joinDownloads ("audio_".data ++ a.defaultFilename)

/-- The target path `os.path.join("downloads", f"SANITIZED.mp3")` built in
`download_audio` (main.py lines 289-290) from the sanitized title. -/
def audioMp3Path (y : YouTubeHandle) : PyStr :=
  joinDownloads (sanitize_filename y.title ++ ".mp3".data)

/-- Outcome of the try-block of `download_audio` (main.py lines 280-312):
trace, files on disk, the local variables `audio_path` and `mp3_path`
(`none` until first assigned), and the caught exception text. -/
structure AudTry where
  evs : List Event
  fs : FS
  ap : Option PyStr
  mp3 : Option PyStr
  err : Option PyStr
deriving DecidableEq

/-- The try-block of `download_audio` (main.py lines 280-312).  The inner
try/except around the ffmpeg check and conversion (lines 293-301) catches
both an absent ffmpeg and a failed conversion, falling back to sending the
originally downloaded container (`mp3_path = audio_path`). -/
def download_audio_try (st : UserState) (env : Env) (fs : FS) : AudTry :=
  match st.yt with
  | none => ⟨[], fs, none, none, some "AttributeError".data⟩
  | some y =>
    match (filterAudioMp4 y.streams).head? with
    | none => ⟨[], fs, none, none, some "No audio stream found.".data⟩
    | some aStream =>
      let evs := [Event.msg "Downloading audio...".data]
      let ap := audioDownloadPath aStream
      if env.audioDownloadOk then
        let evs := evs ++ [Event.downloadTo aStream.itag ap,
          Event.msg "Audio download complete. Processing...".data,
          Event.ffmpegCheck]
        let fs := fs ++ [ap]
        let mp3 := audioMp3Path y
        let convRes : List Event × FS × PyStr :=
          if env.ffmpegAvailable then
            let evs := evs ++ [Event.ffmpegConvert ap mp3]
            if env.convOk then (evs, fs ++ [mp3], mp3)
            else
              (evs ++ [Event.msg "FFmpeg not found. Sending original audio format...".data],
                fs, ap)
          else
            (evs ++ [Event.msg "FFmpeg not found. Sending original audio format...".data],
              fs, ap)
        let evs := convRes.1 ++ [Event.msg "Uploading...".data]
        let fs := convRes.2.1
        let outPath := convRes.2.2
        if env.sendOk then
          ⟨evs ++ [Event.sendAudio outPath, Event.msg "Complete.".data],
            fs, some ap, some outPath, none⟩
        else ⟨evs, fs, some ap, some outPath, some "send failed".data⟩
      else ⟨evs, fs, none, none, some "download failed".data⟩

/-- The finally-block of `download_audio` (main.py lines 316-321):
for each of `audio_path`, `mp3_path` in that order, remove the path only
if the variable is set, the path exists, and the path differs from
`audio_path` (the literal condition `path != audio_path` of line 319). -/
def cleanupAudioPaths (apField : Option PyStr) (paths : List (Option PyStr)) (fs : FS) :
    FS × List Event :=
  paths.foldl
    (fun acc p =>
      match p with
      | none => acc
      | some path =>
        if os_path_exists acc.1 path && !(apField == some path) then
          ((acc.1).erase path, acc.2 ++ [Event.removeFile path])
        else acc)
    (fs, [])

/-- The coroutine `download_audio` (main.py lines 274-321): try-block, the
except-block message on failure, then the finally-block cleanup. -/
def download_audio (st : UserState) (env : Env) (fs : FS) : List Event × FS × Bool :=
  let r := download_audio_try st env fs
  let evs :=
    match r.err with
    | none => r.evs
    | some e => r.evs ++ [Event.msg ("Failed. Error: ".data ++ e)]
  let cl := cleanupAudioPaths r.ap [r.ap, r.mp3] r.fs
  (evs ++ cl.2, cl.1, r.err.isNone)

/-- Seconds field of the duration display, zero-padded as by the Python
format spec `:02d`. -/
def pad2 (n : Nat) : PyStr := if n < 10 then "0".data ++ natChars n else natChars n

/-- The prompt text built by `show_download_options` (main.py lines
111-115): possibly truncated title, duration, view count and the
format question. -/
def downloadOptionsText (y : YouTubeHandle) : PyStr :=
  (if y.title.length > 50 then y.title.take 50 ++ "...".data else y.title) ++
  " Duration: ".data ++ natChars (y.length / 60) ++ ":".data ++ pad2 (y.length % 60) ++
  " Views: ".data ++ natChars y.views ++ " Choose download format:".data

/-- Error text of `handle_youtube_link` (main.py line 149). -/
def linkErrorText : PyStr :=
  "Failed to process the video link. Please check the URL and try again.".data

/-- The handler `handle_youtube_link` (main.py lines 133-149) on an inbound
text message (the only way it is dispatched by the handlers registered in
`main`): strip the text, store it as `user_state.url`, then construct the
`YouTube` object.  `extract` models the `YouTube` constructor: `some`
handle on success, `none` when it raises.  On success the freshly built
handle is stored and the option prompt is shown; on failure the error
text is shown and nothing else in the session is assigned. -/
def handle_youtube_link (st : UserState) (text : PyStr)
    (extract : PyStr → Option YouTubeHandle) : UserState × List Event :=
  let url := pyStrip text
  let st1 := { st with url := some url }
  match extract url with
  | some y =>
    ({ st1 with yt := some y },
      [Event.msg "Analyzing video...".data, Event.msg (downloadOptionsText y)])
  | none =>
    (st1, [Event.msg "Analyzing video...".data, Event.msg linkErrorText])

/-- Structural worker for `replaceRes`.  The fuel argument only bounds the
recursion depth; `replaceRes` passes the string length, which suffices
because every step consumes at least one character. -/
def replaceResCore (fuel : Nat) (s : PyStr) : PyStr :=
  match fuel, s with
  | _, [] => []
  | 0, c :: rest => c :: rest
  | f + 1, c :: rest =>
    if c = 'r' ∧ rest.take 3 = "es_".data then replaceResCore f (rest.drop 3)
    else c :: replaceResCore f rest

/-- Python `query.data.replace("res_", "")` (main.py line 191): delete every
non-overlapping occurrence of `"res_"`, scanning left to right. -/
def replaceRes (s : PyStr) : PyStr := replaceResCore s.length s

/-- Value of a decimal digit string, as read by Python `int`. -/
def digitsToNat (ds : PyStr) : Nat :=
  ds.foldl (fun a c => a * 10 + (c.toNat - 48)) 0

/-- Python `int(s)` restricted to the inputs this program feeds it: a bare
decimal digit string parses to its value, anything else (in particular the
empty string) raises `ValueError`, modelled as `none`.  (Python `int` also
accepts signs and surrounding whitespace; the callback-data strings
reaching line 191 never carry those.) -/
def pyInt (s : PyStr) : Option Nat :=
  if s.isEmpty then none
  else if s.all Char.isDigit then some (digitsToNat s) else none

/-- The regex `^res_[0-9]+$` used to register
`handle_resolution_selection` in `main` (main.py line 328). -/
def matchesResPattern (s : PyStr) : Bool :=
  s.take 4 == "res_".data && !(s.drop 4).isEmpty && (s.drop 4).all Char.isDigit

/-- The quality keyboard built by `handle_download_option` (main.py lines
159-161): one row per stream, in list order, row `i` labelled with the
stream's resolution and size and carrying callback data `res_i`;
a final `Back` row carries callback data `back`. -/
def qualityKeyboard (streams : List YtStream) : List (PyStr × PyStr) :=
  (streams.enum.map (fun p =>
    (natChars (resKey p.2) ++ "p (".data ++ natChars p.2.filesizeMb ++ " MB)".data,
      "res_".data ++ natChars p.1))) ++ [("Back".data, "back".data)]

/-- How an invocation of `handle_download_option` ended. -/
inductive OptionOutcome where
  | showedQualities (streams : List YtStream)
  | noStreams
  | audioDone (ok : Bool)
  | wentBack
  | raised
  | ignored
deriving DecidableEq

/-- The handler `handle_download_option` (main.py lines 151-178), dispatched
for callback data matching `^(video|audio|back)$`.  On `video` with a
stored handle it derives the line-157 stream list and shows the quality
keyboard (the source edits the message text twice, lines 163 and 168); on
`audio` it runs `download_audio`; on `back` it re-renders the option
prompt from the stored handle without re-extraction.  With no stored
handle, `video` raises `AttributeError` out of the handler (it has no
try/except), while `back` reaches the try/except inside
`show_download_options` and reports a generic error. -/
def handle_download_option (st : UserState) (data : PyStr) (env : Env) (fs : FS) :
    UserState × List Event × FS × OptionOutcome :=
  if data == "video".data then
    match st.yt with
    | none => (st, [], fs, .raised)
    | some y =>
      let streams := renderedQualityStreams y
      if !streams.isEmpty then
        (st, [Event.msg "Select video quality: Higher quality = Larger file size".data,
          Event.msg "Select video quality: Higher quality = Larger file size".data],
          fs, .showedQualities streams)
      else (st, [Event.msg "No suitable video streams found.".data], fs, .noStreams)
  else if data == "audio".data then
    let r := download_audio st env fs
    (st, [Event.msg "Processing audio download.".data] ++ r.1, r.2.1, .audioDone r.2.2)
  else if data == "back".data then
    match st.yt with
    | some y => (st, [Event.msg (downloadOptionsText y)], fs, .wentBack)
    | none => (st, [Event.msg "An error occurred. Please try again.".data], fs, .wentBack)
  else (st, [], fs, .ignored)

/-- How an invocation of `handle_resolution_selection` ended. -/
inductive SelOutcome where
  | wentBack
  | ignored
  | failed
  | downloadRan (ok : Bool)
deriving DecidableEq

/-- Error text of `handle_resolution_selection` (main.py line 200),
emitted whenever its try-block raises. -/
def selectionFailText : PyStr := "Failed to select resolution.".data

/-- The handler `handle_resolution_selection` (main.py lines 180-200),
registered for callback data matching `^res_[0-9]+$`.  In source order:
a `back` callback re-renders the option prompt; data without the `res_`
start returns silently; otherwise the index is parsed from
`data.replace("res_", "")`, the stream list is re-derived from
`user_state.yt` by the line-192 expression, and `streams[index]` becomes
`selected_stream` before `download_video` runs.  A parse failure, an
absent handle, an empty stream list, or an out-of-range index raises
inside the try-block, which reports the line-200 error text. -/
def handle_resolution_selection (st : UserState) (data : PyStr) (env : Env)
    (userId now : Nat) (fs : FS) : UserState × List Event × FS × SelOutcome :=
  if data == "back".data then
    match st.yt with
    | some y => (st, [Event.msg (downloadOptionsText y)], fs, .wentBack)
    | none => (st, [Event.msg "An error occurred. Please try again.".data], fs, .wentBack)
  else if !(data.take 4 == "res_".data) then (st, [], fs, .ignored)
  else
    match pyInt (replaceRes data) with
    | none => (st, [Event.msg selectionFailText], fs, .failed)
    | some idx =>
      match st.yt with
      | none => (st, [Event.msg selectionFailText], fs, .failed)
      | some y =>
        let streams := selectionQualityStreams y
        if streams.isEmpty then (st, [Event.msg selectionFailText], fs, .failed)
        else
          match streams.get? idx with
          | none => (st, [Event.msg selectionFailText], fs, .failed)
          | some s =>
            let st1 := { st with selected_stream := some s }
            let r := download_video st1 env userId now fs
            (st1, [Event.msg "Starting download.".data] ++ r.1, r.2.1, .downloadRan r.2.2)

theorem mem_insRes {y a : YtStream} {l : List YtStream} :
    y ∈ insRes a l ↔ y = a ∨ y ∈ l := by
  induction l with
  | nil => simp [insRes]
  | cons b bs ih =>
    by_cases h : resKey a ≤ resKey b
    · simp [insRes, h]
    · simp [insRes, h, ih]
      tauto

theorem pairwise_insRes {a : YtStream} {l : List YtStream}
    (h : l.Pairwise (fun x y => resKey x ≤ resKey y)) :
    (insRes a l).Pairwise (fun x y => resKey x ≤ resKey y) := by
  induction l with
  | nil => simp [insRes]
  | cons b bs ih =>
    rw [List.pairwise_cons] at h
    obtain ⟨hb, hbs⟩ := h
    by_cases hab : resKey a ≤ resKey b
    · rw [insRes]
      simp only [if_pos hab]
      rw [List.pairwise_cons]
      constructor
      · intro y hy
        rcases List.mem_cons.mp hy with rfl | hy
        · exact hab
        · exact le_trans hab (hb y hy)
      · exact List.pairwise_cons.mpr ⟨hb, hbs⟩
    · rw [insRes]
      simp only [if_neg hab]
      rw [List.pairwise_cons]
      constructor
      · intro y hy
        rcases mem_insRes.mp hy with rfl | hy
        · exact le_of_not_le hab
        · exact hb y hy
      · exact ih hbs

theorem pairwise_sortByResAsc (l : List YtStream) :
    (sortByResAsc l).Pairwise (fun x y => resKey x ≤ resKey y) := by
  induction l with
  | nil => simp [sortByResAsc]
  | cons a as ih => exact pairwise_insRes ih

theorem rendered_desc (y : YouTubeHandle) :
    (renderedQualityStreams y).Pairwise (fun a b => resKey b ≤ resKey a) := by
  unfold renderedQualityStreams order_by_resolution
  rw [List.pairwise_reverse]
  exact pairwise_sortByResAsc _

theorem cleanupVideoPaths_foldl_events (ps : List (Option PyStr)) (acc : FS × List Event)
    (h : ∀ e ∈ acc.2, ∃ p, e = Event.removeFile p) :
    ∀ e ∈ (List.foldl
      (fun acc p =>
        match p with
        | none => acc
        | some path =>
          if os_path_exists acc.1 path then
            ((acc.1).erase path, acc.2 ++ [Event.removeFile path])
          else acc)
      acc ps).2, ∃ p, e = Event.removeFile p := by
  induction ps generalizing acc with
  | nil => exact h
  | cons q qs ih =>
    intro e he
    refine ih _ ?_ e he
    match q with
    | none => exact h
    | some path =>
      by_cases hex : os_path_exists acc.1 path
      · simp only [hex, if_pos]
        intro e' he'
        rcases List.mem_append.mp he' with h1 | h2
        · exact h e' h1
        · rcases List.mem_singleton.mp h2 with rfl
          exact ⟨path, rfl⟩
      · simp only [hex, if_neg, not_false_iff]
        exact h

theorem cleanupVideoPaths_events (ps : List (Option PyStr)) (fs : FS) :
    ∀ e ∈ (cleanupVideoPaths ps fs).2, ∃ p, e = Event.removeFile p := by
  unfold cleanupVideoPaths
  exact cleanupVideoPaths_foldl_events ps (fs, []) (by simp)

theorem replaceResCore_digits (f : Nat) (ds : PyStr) (hf : ds.length ≤ f)
    (h : ds.all Char.isDigit = true) : replaceResCore f ds = ds := by
  induction f generalizing ds with
  | zero =>
    cases ds with
    | nil => rfl
    | cons c rest => simp at hf
  | succ f ih =>
    cases ds with
    | nil => rfl
    | cons c rest =>
      rw [List.all_cons, Bool.and_eq_true] at h
      have hc : ¬(c = 'r' ∧ rest.take 3 = "es_".data) := by
        rintro ⟨rfl, -⟩
        simp [Char.isDigit] at h
      rw [replaceResCore, if_neg hc, ih rest (by simp at hf; omega) h.2]

theorem replaceRes_digits (ds : PyStr) (h : ds.all Char.isDigit = true) :
    replaceRes ds = ds :=
  replaceResCore_digits ds.length ds le_rfl h

theorem replaceRes_res_digits (ds : PyStr) (h : ds.all Char.isDigit = true) :
    replaceRes ("res_".data ++ ds) = ds := by
  have h1 : ("es_".data ++ ds).take 3 = "es_".data :=
    List.take_left' rfl
  have h2 : ("es_".data ++ ds).drop 3 = ds :=
    List.drop_left' rfl
  have hlen : ("res_".data ++ ds).length = ds.length + 4 := by
    simp [List.length_append]
  show replaceResCore ("res_".data ++ ds).length ('r' :: ("es_".data ++ ds)) = ds
  rw [hlen]
  show replaceResCore (ds.length + 3 + 1) ('r' :: ("es_".data ++ ds)) = ds
  rw [replaceResCore, if_pos ⟨rfl, h1⟩, h2,
    replaceResCore_digits (ds.length + 3) ds (by omega) h]

theorem matchesResPattern_spec (s : PyStr) (h : matchesResPattern s = true) :
    s = "res_".data ++ s.drop 4 ∧ (s.drop 4) ≠ [] ∧ (s.drop 4).all Char.isDigit = true := by
  unfold matchesResPattern at h
  rw [Bool.and_eq_true, Bool.and_eq_true] at h
  obtain ⟨⟨h1, h2⟩, h3⟩ := h
  have htake : s.take 4 = "res_".data := eq_of_beq h1
  have hne : (s.drop 4) ≠ [] := by
    rw [Bool.not_eq_eq_eq_not, Bool.not_true] at h2
    exact fun hnil => by simp [hnil] at h2
  refine ⟨?_, hne, h3⟩
  conv_lhs => rw [← List.take_append_drop 4 s]
  rw [htake]

theorem pyInt_digits (ds : PyStr) (hne : ds ≠ []) (hd : ds.all Char.isDigit = true) :
    pyInt ds = some (digitsToNat ds) := by
  unfold pyInt
  rw [if_neg (by simpa using hne), if_pos hd]

/-- An audio-only mp4 stream, used in concrete instances. -/
def exAudio : YtStream := ⟨140, "mp4".data, none, true, false, 5, "song.mp4".data⟩

/-- A progressive 720p mp4 stream. -/
def exProg : YtStream := ⟨22, "mp4".data, some 720, false, true, 40, "v.mp4".data⟩

/-- A non-progressive 1080p mp4 stream. -/
def exAdap : YtStream := ⟨137, "mp4".data, some 1080, false, false, 80, "v2.mp4".data⟩

/-- A non-progressive 720p mp4 stream, tying with `exProg` on resolution. -/
def exAdap720 : YtStream := ⟨136, "mp4".data, some 720, false, false, 30, "v3.mp4".data⟩

/-- A concrete media handle offering all four example streams. -/
def exHandle : YouTubeHandle :=
  ⟨"My Title".data, "Auth".data, 125, 1000, [exAudio, exProg, exAdap, exAdap720]⟩

/-- A second concrete media handle, for link-resubmission instances. -/
def exHandle2 : YouTubeHandle := ⟨"Other".data, "A2".data, 10, 5, [exAudio]⟩

/-- A session that has extracted `exHandle` and selected nothing yet. -/
def exState : UserState := ⟨some exHandle, none, none⟩

/-- A session with a handle, a selected stream and a stored url, as left by
a prior incomplete operation. -/
def exStatePrior : UserState := ⟨some exHandle, some exProg, some "old-url".data⟩

/-- Environment in which every collaborator succeeds. -/
def envAll : Env := ⟨true, true, true, true, true, true⟩

/-- Environment in which ffmpeg is absent and everything else succeeds. -/
def envNoFF : Env := ⟨false, true, true, true, true, true⟩

/-- Environment in which the upload fails and everything else succeeds. -/
def envNoSend : Env := ⟨true, true, true, true, true, false⟩

/-- Whether an event is an invocation of the external transcoder binary
(the availability probe, the merge, or the audio conversion). -/
def invokesTranscoder : Event → Bool
  | .ffmpegCheck => true
  | .ffmpegMerge _ _ _ => true
  | .ffmpegConvert _ _ => true
  | _ => false

/-- C1: the specification claims that after an audio operation finishes the
downloaded audio file has been deleted.  Evaluating the embedded
`download_audio` on a concrete input refutes this for the code: after a
fully successful delivery, and equally after a failed upload, the
downloaded audio container is still on disk, because the cleanup condition
`path != audio_path` of main.py line 319 excludes `audio_path` itself from
every deletion. -/
theorem c1_audio_temp_file_survives_cleanup :
    (download_audio exState envAll []).2.1 = [audioDownloadPath exAudio] ∧
    (download_audio exState envAll []).2.2 = true ∧
    (download_audio exState envNoSend []).2.1 = [audioDownloadPath exAudio] ∧
    (download_audio exState envNoSend []).2.2 = false := by decide

/-- C2 counterexample: the concrete handle `exHandle` offers a progressive
and a non-progressive 720p mp4 stream, so the rendered quality list has
resolutions 1080, 720, 720: descending, but not strictly descending as
the claim states. -/
theorem c2_not_strictly_descending :
    ¬ (renderedQualityStreams exHandle).Pairwise (fun a b => resKey b < resKey a) := by
  decide

/-- C3 counterexample: submitting a new link over `exStatePrior` with a
successful extraction to `exHandle2` replaces the media handle, yet the
`selected_stream` left over from the prior operation is still `exProg`
rather than being cleared: `handle_youtube_link` (main.py lines 133-149)
never assigns `selected_stream`. -/
theorem c3_selected_stream_not_cleared :
    ((handle_youtube_link exStatePrior "new-url".data
        (fun _ => some exHandle2)).1.yt = some exHandle2) ∧
    ((handle_youtube_link exStatePrior "new-url".data
        (fun _ => some exHandle2)).1.selected_stream = some exProg) := by decide

/-- C3 amended: a new link submission whose extraction succeeds replaces the
session's media handle and source url, but leaves `selected_stream`
exactly as it was; no clearing takes place. -/
theorem c3_new_link_replaces_handle_keeps_selection (st : UserState) (text : PyStr)
    (extract : PyStr → Option YouTubeHandle) (y : YouTubeHandle)
    (h : extract (pyStrip text) = some y) :
    (handle_youtube_link st text extract).1 =
      ⟨some y, st.selected_stream, some (pyStrip text)⟩ := by
  simp only [handle_youtube_link]
  rw [h]

/-- C3 witness: the amended statement evaluated on the concrete prior
session. -/
theorem c3_witness :
    (handle_youtube_link exStatePrior "new-url".data
        (fun _ => some exHandle2)).1 =
      ⟨some exHandle2, some exProg, some "new-url".data⟩ := by
  have h := c3_new_link_replaces_handle_keeps_selection exStatePrior "new-url".data
    (fun _ => some exHandle2) exHandle2 rfl
  rw [h]
  decide

/-- C2 amended: for every media handle the rendered video-quality list is
sorted descending by resolution (non-strictly: streams sharing a
resolution tie), the selection handler re-derives exactly the same
filter-and-sort, the quality keyboard really shows that list, and a
selected index i resolves to the i-th element of the rendered order. -/
theorem c2_quality_order_deterministic (y : YouTubeHandle) :
    (renderedQualityStreams y).Pairwise (fun a b => resKey b ≤ resKey a) ∧
    selectionQualityStreams y = renderedQualityStreams y ∧
    (∀ (st : UserState) (env : Env) (fs : FS),
      st.yt = some y → renderedQualityStreams y ≠ [] →
      (handle_download_option st "video".data env fs).2.2.2 =
        OptionOutcome.showedQualities (renderedQualityStreams y)) ∧
    (∀ (st : UserState) (env : Env) (userId now : Nat) (fs : FS) (data : PyStr) (i : Nat),
      st.yt = some y → data ≠ "back".data → data.take 4 = "res_".data →
      pyInt (replaceRes data) = some i →
      ∀ h : i < (renderedQualityStreams y).length,
        (handle_resolution_selection st data env userId now fs).1.selected_stream =
          some ((renderedQualityStreams y).get ⟨i, h⟩)) := by
  refine ⟨rendered_desc y, rfl, ?_, ?_⟩
  · intro st env fs hyt hne
    simp only [handle_download_option, hyt]
    have hie : (renderedQualityStreams y).isEmpty = false := by
      cases hl : renderedQualityStreams y with
      | nil => exact absurd hl hne
      | cons a as => rfl
    simp [hie]
  · intro st env userId now fs data i hyt hback htake hint h
    have hb : (data == "back".data) = false := beq_eq_false_iff_ne.mpr hback
    have ht : (data.take 4 == "res_".data) = true := beq_iff_eq.mpr htake
    have hie : (selectionQualityStreams y).isEmpty = false := by
      cases hl : selectionQualityStreams y with
      | nil =>
        rw [show selectionQualityStreams y = renderedQualityStreams y from rfl] at hl
        rw [hl] at h
        exact absurd h (by simp)
      | cons a as => rfl
    have hget : (selectionQualityStreams y).get? i =
        some ((renderedQualityStreams y).get ⟨i, h⟩) :=
      List.get?_eq_get h
    simp only [handle_resolution_selection, hb, ht, hint, hyt, hie, hget]
    simp

/-- C2 witness: on the concrete handle, selecting callback data `res_1`
resolves to the second entry of the rendered descending list, the
non-progressive 720p stream. -/
theorem c2_witness :
    (handle_resolution_selection exState "res_1".data envAll 1 2 []).1.selected_stream =
      some exAdap720 := by
  have h := (c2_quality_order_deterministic exHandle).2.2.2 exState envAll 1 2 []
    "res_1".data 1 rfl (by decide) (by decide) (by decide) (by decide)
  rw [h]
  decide

theorem download_video_trace (st : UserState) (env : Env) (userId now : Nat) (fs : FS) :
    (download_video st env userId now fs).1 =
      (match (download_video_try st env userId now fs).err with
       | none => (download_video_try st env userId now fs).evs
       | some e => (download_video_try st env userId now fs).evs ++
           [Event.msg ("Failed. Error: ".data ++ e)]) ++
      (cleanupVideoPaths
        [(download_video_try st env userId now fs).dp,
         (download_video_try st env userId now fs).vp,
         (download_video_try st env userId now fs).ap]
        (download_video_try st env userId now fs).fs).2 := rfl

theorem download_video_trace_split (st : UserState) (env : Env) (userId now : Nat)
    (fs : FS) :
    ∀ e ∈ (download_video st env userId now fs).1,
      e ∈ (download_video_try st env userId now fs).evs ∨
      (∃ t, e = Event.msg t) ∨ (∃ p, e = Event.removeFile p) := by
  intro e he
  rw [download_video_trace] at he
  rcases List.mem_append.mp he with h1 | h2
  · rcases herr : (download_video_try st env userId now fs).err with _ | ex
    · rw [herr] at h1
      exact Or.inl h1
    · rw [herr] at h1
      rcases List.mem_append.mp h1 with h3 | h4
      · exact Or.inl h3
      · rcases List.mem_singleton.mp h4 with rfl
        exact Or.inr (Or.inl ⟨_, rfl⟩)
  · exact Or.inr (Or.inr (cleanupVideoPaths_events _ _ e h2))

theorem download_video_try_evs_subset (st : UserState) (env : Env) (userId now : Nat)
    (fs : FS) :
    ∀ e ∈ (download_video_try st env userId now fs).evs,
      e ∈ (download_video st env userId now fs).1 := by
  intro e he
  rw [download_video_trace]
  rcases herr : (download_video_try st env userId now fs).err with _ | ex <;>
    simp [herr, he]

theorem progressive_try_no_transcoder (st : UserState) (env : Env) (userId now : Nat)
    (fs : FS) (s : YtStream) (hs : st.selected_stream = some s)
    (hp : s.isProgressive = true) :
    ∀ e ∈ (download_video_try st env userId now fs).evs, invokesTranscoder e = false := by
  unfold download_video_try
  rw [hs]
  rcases env with ⟨ff, mg, cv, vd, ad, sd⟩
  cases vd <;> cases sd <;> cases hyt : st.yt <;>
    simp_all [invokesTranscoder, hp]

/-- C4: a progressive stream selection never invokes the external transcoder
at any point of `download_video` (no availability probe, no merge, no
conversion, on any environment and any outcome); a non-progressive
selection whose separate video and audio parts both download, with the
transcoder present, always reaches the merge invocation of main.py line
248-249, whatever the merge or upload outcome. -/
theorem c4_transcoder_round_trip (st : UserState) (env : Env) (userId now : Nat)
    (fs : FS) (s : YtStream) (hs : st.selected_stream = some s) :
    (s.isProgressive = true →
      ∀ e ∈ (download_video st env userId now fs).1, invokesTranscoder e = false) ∧
    (s.isProgressive = false →
      ∀ y a, st.yt = some y → (filterAudioMp4 y.streams).head? = some a →
        env.ffmpegAvailable = true → env.videoDownloadOk = true →
        env.audioDownloadOk = true →
        Event.ffmpegMerge
          (joinDownloads ("video_".data ++ videoFilename userId now))
          (joinDownloads ("audio_".data ++ videoFilename userId now))
          (joinDownloads ("final_".data ++ videoFilename userId now))
            ∈ (download_video st env userId now fs).1) := by
  constructor
  · intro hp e he
    rcases download_video_trace_split st env userId now fs e he with h1 | ⟨t, rfl⟩ | ⟨p, rfl⟩
    · exact progressive_try_no_transcoder st env userId now fs s hs hp e h1
    · rfl
    · rfl
  · intro hp y a hyt ha hff hvd had
    apply download_video_try_evs_subset
    unfold download_video_try
    simp only [hs, hyt, ha, hp, hff, hvd, had]
    cases hmg : env.mergeOk <;> cases hsd : env.sendOk <;> simp

/-- C4 witness: the progressive 720p selection produces a transcoder-free
trace, and the non-progressive 1080p selection with ffmpeg present reaches
the merge invocation. -/
theorem c4_witness :
    (∀ e ∈ (download_video ⟨some exHandle, some exProg, none⟩ envAll 1 2 []).1,
      invokesTranscoder e = false) ∧
    Event.ffmpegMerge
      (joinDownloads ("video_".data ++ videoFilename 1 2))
      (joinDownloads ("audio_".data ++ videoFilename 1 2))
      (joinDownloads ("final_".data ++ videoFilename 1 2))
        ∈ (download_video ⟨some exHandle, some exAdap, none⟩ envAll 1 2 []).1 := by
  constructor
  · exact (c4_transcoder_round_trip ⟨some exHandle, some exProg, none⟩ envAll 1 2 []
      exProg rfl).1 rfl
  · exact (c4_transcoder_round_trip ⟨some exHandle, some exAdap, none⟩ envAll 1 2 []
      exAdap rfl).2 rfl exHandle exAudio rfl (by decide) rfl rfl rfl

theorem download_audio_trace (st : UserState) (env : Env) (fs : FS) :
    (download_audio st env fs).1 =
      (match (download_audio_try st env fs).err with
       | none => (download_audio_try st env fs).evs
       | some e => (download_audio_try st env fs).evs ++
           [Event.msg ("Failed. Error: ".data ++ e)]) ++
      (cleanupAudioPaths (download_audio_try st env fs).ap
        [(download_audio_try st env fs).ap, (download_audio_try st env fs).mp3]
        (download_audio_try st env fs).fs).2 := rfl

theorem download_audio_try_evs_subset (st : UserState) (env : Env) (fs : FS) :
    ∀ e ∈ (download_audio_try st env fs).evs, e ∈ (download_audio st env fs).1 := by
  intro e he
  rw [download_audio_trace]
  rcases herr : (download_audio_try st env fs).err with _ | ex <;> simp [herr, he]

/-- C5: with the transcoder absent, a non-progressive video request whose
downloads and upload succeed still completes, warns that audio is missing,
and delivers the video-only part; an audio request still completes and
delivers the originally fetched audio container. -/
theorem c5_transcoder_absent_degrades (st : UserState) (env : Env) (userId now : Nat)
    (fs : FS) (s : YtStream) (y : YouTubeHandle) (a : YtStream)
    (hyt : st.yt = some y) (hff : env.ffmpegAvailable = false)
    (hvd : env.videoDownloadOk = true) (had : env.audioDownloadOk = true)
    (hsend : env.sendOk = true) :
    (st.selected_stream = some s → s.isProgressive = false →
      (filterAudioMp4 y.streams).head? = some a →
      (download_video st env userId now fs).2.2 = true ∧
      Event.msg "FFmpeg not found. Sending video without audio...".data
        ∈ (download_video st env userId now fs).1 ∧
      Event.sendVideo (joinDownloads ("video_".data ++ videoFilename userId now))
        ∈ (download_video st env userId now fs).1) ∧
    ((filterAudioMp4 y.streams).head? = some a →
      (download_audio st env fs).2.2 = true ∧
      Event.msg "FFmpeg not found. Sending original audio format...".data
        ∈ (download_audio st env fs).1 ∧
      Event.sendAudio (audioDownloadPath a) ∈ (download_audio st env fs).1) := by
  constructor
  · intro hsel hp ha
    have herr : (download_video_try st env userId now fs).err = none := by
      unfold download_video_try
      simp [hsel, hp, hyt, ha, hvd, had, hff, hsend]
    refine ⟨?_, ?_, ?_⟩
    · show (download_video_try st env userId now fs).err.isNone = true
      rw [herr]
      rfl
    · apply download_video_try_evs_subset
      unfold download_video_try
      simp [hsel, hp, hyt, ha, hvd, had, hff, hsend]
    · apply download_video_try_evs_subset
      unfold download_video_try
      simp [hsel, hp, hyt, ha, hvd, had, hff, hsend]
  · intro ha
    have herr : (download_audio_try st env fs).err = none := by
      unfold download_audio_try
      simp [hyt, ha, had, hff, hsend]
    refine ⟨?_, ?_, ?_⟩
    · show (download_audio_try st env fs).err.isNone = true
      rw [herr]
      rfl
    · apply download_audio_try_evs_subset
      unfold download_audio_try
      simp [hyt, ha, had, hff, hsend]
    · apply download_audio_try_evs_subset
      unfold download_audio_try
      simp [hyt, ha, had, hff, hsend]

/-- C5 witness: the degradation behaviour evaluated on the concrete handle
with ffmpeg absent. -/
theorem c5_witness :
    (download_video ⟨some exHandle, some exAdap, none⟩ envNoFF 1 2 []).2.2 = true ∧
    Event.sendVideo (joinDownloads ("video_".data ++ videoFilename 1 2))
      ∈ (download_video ⟨some exHandle, some exAdap, none⟩ envNoFF 1 2 []).1 ∧
    (download_audio ⟨some exHandle, some exAdap, none⟩ envNoFF []).2.2 = true ∧
    Event.sendAudio (audioDownloadPath exAudio)
      ∈ (download_audio ⟨some exHandle, some exAdap, none⟩ envNoFF []).1 := by
  have h := c5_transcoder_absent_degrades ⟨some exHandle, some exAdap, none⟩ envNoFF 1 2 []
    exAdap exHandle exAudio rfl rfl rfl rfl rfl
  obtain ⟨h1, h2⟩ := h
  obtain ⟨a1, a2, a3⟩ := h1 rfl rfl (by decide)
  obtain ⟨b1, b2, b3⟩ := h2 (by decide)
  exact ⟨a1, a3, b1, b3⟩


/-- C6: when extraction of a submitted link fails, the handler stores the
stripped url, leaves the media handle and the selected stream exactly as
they were, reports the user-visible error text, and performs no other
side effect: its whole trace is the two message edits. -/
theorem c6_failed_extraction_frame (st : UserState) (text : PyStr)
    (extract : PyStr → Option YouTubeHandle)
    (hfail : extract (pyStrip text) = none) :
    (handle_youtube_link st text extract).1 =
      ⟨st.yt, st.selected_stream, some (pyStrip text)⟩ ∧
    (handle_youtube_link st text extract).2 =
      [Event.msg "Analyzing video...".data, Event.msg linkErrorText] := by
  simp only [handle_youtube_link]
  rw [hfail]
  exact ⟨rfl, rfl⟩

/-- C6 witness: a failing extraction on the concrete prior session. -/
theorem c6_witness :
    (handle_youtube_link exStatePrior "bad url".data (fun _ => none)).1 =
      ⟨some exHandle, some exProg, some "bad url".data⟩ ∧
    (handle_youtube_link exStatePrior "bad url".data (fun _ => none)).2 =
      [Event.msg "Analyzing video...".data, Event.msg linkErrorText] := by
  have h := c6_failed_extraction_frame exStatePrior "bad url".data (fun _ => none) rfl
  exact ⟨h.1.trans (by decide), h.2⟩

theorem matchesResPattern_not_back (s : PyStr) (h : matchesResPattern s = true) :
    (s == "back".data) = false := by
  obtain ⟨hform, hne, hdig⟩ := matchesResPattern_spec s h
  rw [beq_eq_false_iff_ne]
  intro hcontra
  rw [hform] at hcontra
  have h2 := congrArg List.head? hcontra
  simp at h2

/-- C7: a quality selection made with no media handle in the session, or
whose index is at or beyond the length of the re-derived stream list,
reports the selection error text and returns with the session, the
file system and the trace otherwise untouched: the download pipeline is
never entered. -/
theorem c7_invalid_selection_fails_fast (st : UserState) (data : PyStr) (env : Env)
    (userId now : Nat) (fs : FS) (hpat : matchesResPattern data = true) :
    (st.yt = none →
      handle_resolution_selection st data env userId now fs =
        (st, [Event.msg selectionFailText], fs, SelOutcome.failed)) ∧
    (∀ y i, st.yt = some y → pyInt (replaceRes data) = some i →
      (selectionQualityStreams y).length ≤ i →
      handle_resolution_selection st data env userId now fs =
        (st, [Event.msg selectionFailText], fs, SelOutcome.failed)) := by
  obtain ⟨hform, hne, hdig⟩ := matchesResPattern_spec data hpat
  have hb : (data == "back".data) = false := matchesResPattern_not_back data hpat
  have ht : (data.take 4 == "res_".data) = true := by
    rw [beq_iff_eq, hform]
    exact List.take_left' rfl
  have hint : pyInt (replaceRes data) = some (digitsToNat (data.drop 4)) := by
    conv_lhs => rw [hform, replaceRes_res_digits _ hdig]
    exact pyInt_digits _ hne hdig
  constructor
  · intro hyt
    simp [handle_resolution_selection, hb, ht, hint, hyt]
  · intro y i hyt hi hlen
    have hget : (selectionQualityStreams y)[i]? = none := List.getElem?_eq_none hlen
    cases hemp : (selectionQualityStreams y).isEmpty <;>
      simp [handle_resolution_selection, hb, ht, hi, hyt, hemp, hget]

/-- C7 witness: a selection with no handle, and an out-of-range selection
on the concrete handle, both fail fast. -/
theorem c7_witness :
    handle_resolution_selection ⟨none, none, none⟩ "res_0".data envAll 1 2 [] =
      (⟨none, none, none⟩, [Event.msg selectionFailText], [], SelOutcome.failed) ∧
    handle_resolution_selection exState "res_9".data envAll 1 2 [] =
      (exState, [Event.msg selectionFailText], [], SelOutcome.failed) := by
  constructor
  · exact (c7_invalid_selection_fails_fast ⟨none, none, none⟩ "res_0".data envAll 1 2 []
      (by decide)).1 rfl
  · exact (c7_invalid_selection_fails_fast exState "res_9".data envAll 1 2 []
      (by decide)).2 exHandle 9 rfl (by decide) (by decide)

/-- C8: the filename sanitizer returns a string free of every reserved
character, the one externally-derived title used to build a path (the
mp3 target of `download_audio`, main.py lines 289-290) is built from the
sanitized title, and the resulting path component after the scratch
directory contains no reserved character. -/
theorem c8_sanitizer_removes_reserved (s : PyStr) (y : YouTubeHandle) :
    ((sanitize_filename s).all (fun c => !(badChars.contains c)) = true) ∧
    audioMp3Path y = joinDownloads (sanitize_filename y.title ++ ".mp3".data) ∧
    (((audioMp3Path y).drop "downloads/".data.length).all
      (fun c => !(badChars.contains c)) = true) := by
  have hall : ∀ t : PyStr,
      (sanitize_filename t).all (fun c => !(badChars.contains c)) = true := by
    intro t
    rw [List.all_eq_true]
    intro c hc
    exact (List.mem_filter.mp hc).2
  refine ⟨hall s, rfl, ?_⟩
  show ((joinDownloads (sanitize_filename y.title ++ ".mp3".data)).drop
    "downloads/".data.length).all (fun c => !(badChars.contains c)) = true
  unfold joinDownloads
  rw [List.drop_left' rfl, List.all_append, Bool.and_eq_true]
  exact ⟨hall y.title, by decide⟩

/-- C9: `delete_file` is total and idempotent: on any file system and path
it never raises; deleting an absent path returns the file system
unchanged; and on a duplicate-free file system a second deletion of the
same path is a no-op that again raises nothing. -/
theorem c9_delete_file_idempotent (fs : FS) (p : PyStr) :
    (∃ fs1, delete_file fs p = Except.ok fs1) ∧
    (p ∉ fs → delete_file fs p = Except.ok fs) ∧
    (fs.Nodup → ∃ fs1, delete_file fs p = Except.ok fs1 ∧
      delete_file fs1 p = Except.ok fs1) := by
  by_cases h : p ∈ fs
  · refine ⟨⟨fs.erase p, ?_⟩, fun hn => absurd h hn, fun hnd => ⟨fs.erase p, ?_, ?_⟩⟩
    · simp [delete_file, os_path_exists, os_remove, h]
    · simp [delete_file, os_path_exists, os_remove, h]
    · simp [delete_file, os_path_exists, os_remove, hnd.not_mem_erase]
  · refine ⟨⟨fs, ?_⟩, fun _ => ?_, fun _ => ⟨fs, ?_, ?_⟩⟩ <;>
      simp [delete_file, os_path_exists, os_remove, h]

/-- C9 witness: deleting an absent path on a concrete file system is a
no-op, and double deletion of a present path raises nothing. -/
theorem c9_witness :
    delete_file ["a".data] "b".data = Except.ok ["a".data] ∧
    (∃ fs1, delete_file ["a".data] "a".data = Except.ok fs1 ∧
      delete_file fs1 "a".data = Except.ok fs1) := by
  constructor
  · exact (c9_delete_file_idempotent ["a".data] "b".data).2.1 (by decide)
  · exact (c9_delete_file_idempotent ["a".data] "a".data).2.2 (by decide)

/-- C10: every callback data string matching the registration regex of
main.py line 328 is distinct from `back`, stripping its `res_` start by
the line-191 replace yields exactly the digit remainder, and the integer
parse of that remainder always succeeds. -/
theorem c10_registered_pattern_parses (s : PyStr) (h : matchesResPattern s = true) :
    s ≠ "back".data ∧ replaceRes s = s.drop 4 ∧
    (s.drop 4).all Char.isDigit = true ∧
    pyInt (replaceRes s) = some (digitsToNat (s.drop 4)) := by
  obtain ⟨hform, hne, hdig⟩ := matchesResPattern_spec s h
  have hrep : replaceRes s = s.drop 4 := by
    conv_lhs => rw [hform]
    exact replaceRes_res_digits _ hdig
  refine ⟨?_, hrep, hdig, ?_⟩
  · exact beq_eq_false_iff_ne.mp (matchesResPattern_not_back s h)
  · rw [hrep]
    exact pyInt_digits _ hne hdig

/-- C10 witness: the concrete callback `res_12` matches the registration
pattern and parses to index 12. -/
theorem c10_witness :
    matchesResPattern "res_12".data = true ∧
    pyInt (replaceRes "res_12".data) = some 12 := by
  refine ⟨by decide, ?_⟩
  have h := (c10_registered_pattern_parses "res_12".data (by decide)).2.2.2
  rw [h]
  decide
